import Mathlib

/-!
# Verification of the hedge-ai market-data backend (`server.py`)

A shallow embedding of the market-data caching and option-contract
resolution engine of `src/server.py`, together with theorems settling the
specification claims about it.

Modelling conventions:
* Python floats (prices, strikes) are modelled as `ℚ`; the code performs no
  inexact arithmetic on them apart from `round`, which we model exactly as
  Python's round-half-to-even (`pyRound`).
* Timestamps and calendar dates are modelled as `Int` (epoch seconds for
  timestamps; any order-respecting integer encoding for dates, e.g.
  `20251028` for 2025-10-28).  `datetime` parsing of an ISO string is
  modelled by passing the parsed result as `Option Int` (`none` = the
  `except` branch taken on a parse failure).
* Python dicts keyed by strings are association lists (`List (String × α)`)
  read through `dictGet`; `d[k] = v` is modelled by the lookup-equivalent
  override `dictSet`.
* A fallible upstream call is an `Option` argument: `some x` is the value a
  successful call returned, `none` means the call raised.
-/

/-- Python's `int(round(x))` on a rational: round to the nearest integer,
ties going to the even integer (round-half-even, the semantics of Python 3
`round`). -/
def pyRound (q : ℚ) : Int :=
  let f : Int := ⌊q⌋
  let r : ℚ := q - f
  if r < 1/2 then f
  else if 1/2 < r then f + 1
  else if f % 2 = 0 then f else f + 1

/-- Dict lookup `d.get(k)` on an association list. -/
def dictGet {α : Type} (m : List (String × α)) (k : String) : Option α :=
  match m with
  | [] => none
  | (k2, v) :: rest => if k2 = k then some v else dictGet rest k

/-- Dict assignment `d[k] = v`, modelled as an association-list override:
lookup-equivalent to Python's in-place mutation. -/
def dictSet {α : Type} (m : List (String × α)) (k : String) (v : α) :
    List (String × α) :=
  (k, v) :: m

/-- One row of the NFO instrument dump returned by
`kite.instruments("NFO")`: the dict fields `server.py` reads.  `strike`,
`instrument_type` and `tradingsymbol` are `Option` because the code guards
them with `.get` / `is None` checks (a missing key is `none`). -/
structure InstrumentRow where
  segment : String
  name : String
  expiry : Int
  strike : Option ℚ
  instrument_type : Option String
  tradingsymbol : Option String
deriving DecidableEq, Repr

/-- The underlying-name mapping used by both `_build_strike_list` (line 200)
and `_find_tradingsymbol` (line 253):
`underlying = "NIFTY" if instrument_name == "NIFTY_50" else "BANKNIFTY"`. -/
def underlyingFor (instrument_name : String) : String :=
  if instrument_name = "NIFTY_50" then "NIFTY" else "BANKNIFTY"

/-- The per-row condition under which `_find_tradingsymbol`'s loop body
reaches `best = row.get("tradingsymbol"); break` (lines 263-284): segment is
`"NFO-OPT"`, name is the mapped underlying, expiry date equals the parsed
target, `instrument_type` equals the requested side, the strike key is
present, and the strikes agree after Python `int(round(float(·)))` on both
sides. -/
def matchesContract (underlying : String) (expiry_target : Int) (strike : ℚ)
    (opt_type : String) (row : InstrumentRow) : Bool :=
  decide (row.segment = "NFO-OPT") && decide (row.name = underlying) &&
    decide (row.expiry = expiry_target) &&
    decide (row.instrument_type = some opt_type) &&
    (match row.strike with
     | some st => decide (pyRound st = pyRound strike)
     | none => false)

/-- `_find_tradingsymbol(instrument_name, expiry_iso, strike, opt_type)`
(lines 248-288).  `expiry_target` is the result of
`datetime.fromisoformat(expiry_iso).date()`, `none` on parse failure (the
`except: return None` branch).  The loop takes the first row matching every
condition and returns that row's `tradingsymbol` (which `row.get` may
itself report as missing). -/
def find_tradingsymbol (instrument_dump : List InstrumentRow)
    (instrument_name : String) (expiry_target : Option Int) (strike : ℚ)
    (opt_type : String) : Option String :=
  match expiry_target with
  | none => none
  | some d =>
    (instrument_dump.find?
        (matchesContract (underlyingFor instrument_name) d strike opt_type)).bind
      (fun row => row.tradingsymbol)

/-- Python's `sorted(set(l))` for integers: the distinct elements of `l` in
ascending order. -/
def pySortedSet (l : List Int) : List Int :=
  List.insertionSort (· ≤ ·) l.dedup

/-- The strikes collected by `_build_strike_list`'s loop (lines 207-228):
`strikes.add(int(round(float(strike_val))))` over the rows of the dump whose
segment is `"NFO-OPT"`, whose name is the mapped underlying, whose expiry
equals the parsed target date, and whose strike key is present. -/
def collectStrikes (instrument_dump : List InstrumentRow) (underlying : String)
    (expiry_target : Int) : List Int :=
  instrument_dump.filterMap (fun row =>
    if row.segment = "NFO-OPT" ∧ row.name = underlying ∧
        row.expiry = expiry_target then
      row.strike.map pyRound
    else none)

/-- `_build_strike_list(instrument_name, expiry_iso)` (lines 194-245).
`expiry_target` is the parsed `datetime.fromisoformat(expiry_iso).date()`
(`none` = the `except: return []` branch); `spot` is the `STATE["spot"]`
dict.  `sorted(set)` of the collected strikes; then, when the spot dict has
a truthy (nonzero) entry for `instrument_name`, the band filter
`[spot-1500, spot+1500]` is applied, kept only when it is nonempty. -/
def build_strike_list (instrument_dump : List InstrumentRow)
    (instrument_name : String) (expiry_target : Option Int)
    (spot : List (String × ℚ)) : List Int :=
  match expiry_target with
  | none => []
  | some d =>
    let sorted_strikes :=
      pySortedSet (collectStrikes instrument_dump (underlyingFor instrument_name) d)
    match dictGet spot instrument_name with
    | none => sorted_strikes
    | some spot_val =>
      if spot_val = 0 then sorted_strikes
      else
        let lower := spot_val - 1500
        let upper := spot_val + 1500
        let filtered := sorted_strikes.filter
          (fun (s : Int) => decide (lower ≤ (s : ℚ)) && decide ((s : ℚ) ≤ upper))
        if filtered = [] then sorted_strikes else filtered

/-- `_is_stale()` (lines 470-481): stale when `STATE["last_fetch_ts"]` is
unset (and, in the source, when the stored string fails to parse — both
collapsed into `none` here), or when it lies more than 120 seconds before
`now`. -/
def is_stale (last_fetch_ts : Option Int) (now : Int) : Bool :=
  match last_fetch_ts with
  | none => true
  | some ts => decide (now - ts > 120)

/-- `INSTRUMENT_REFRESH_SECONDS = 300` (line 45): the rate floor between
instrument-catalog pulls. -/
def INSTRUMENT_REFRESH_SECONDS : Int := 300

/-- The slice of `STATE` that `_maybe_pull_instruments` touches:
`instrument_dump` and `instrument_last_pull`. -/
structure CatalogState where
  instrument_dump : List InstrumentRow
  instrument_last_pull : Int
deriving DecidableEq, Repr

/-- `_maybe_pull_instruments()` (lines 124-142).  `now` is `time.time()`;
`fetch` is the outcome of `kc.instruments("NFO")` (`none` when
`_kite_client()` or the upstream call raises).  Returns the new state and
whether the upstream pull was attempted (`False` = the early
`return  # recently pulled`).  On a raised fetch the `except` branch only
logs: both fields are left as they were. -/
def maybe_pull_instruments (s : CatalogState) (now : Int)
    (fetch : Option (List InstrumentRow)) : CatalogState × Bool :=
  if now - s.instrument_last_pull < INSTRUMENT_REFRESH_SECONDS then (s, false)
  else
    match fetch with
    | some instruments =>
      ({ instrument_dump := instruments, instrument_last_pull := now }, true)
    | none => (s, true)

/-- A sequence of `_maybe_pull_instruments` calls, each given by its
`time.time()` value and the outcome its upstream pull would have; returns
the final state and how many upstream pulls were attempted. -/
def run_pull_calls (s : CatalogState)
    (calls : List (Int × Option (List InstrumentRow))) : CatalogState × Nat :=
  match calls with
  | [] => (s, 0)
  | (now, fetch) :: rest =>
    let step := maybe_pull_instruments s now fetch
    let next := run_pull_calls step.1 rest
    (next.1, (if step.2 then 1 else 0) + next.2)

/-- The fields of the `q[full_symbol]` dict that `_quote_option` reads
(lines 302-314); each is `Option` because the code reads them with
`.get` (the REST quote does not always return greeks). -/
structure QuoteData where
  last_price : Option ℚ
  implied_volatility : Option ℚ
  delta : Option ℚ
  theta : Option ℚ
  gamma : Option ℚ
  vega : Option ℚ
deriving DecidableEq, Repr

/-- The `out` dict built by `_quote_option` (lines 307-316) and stored in
`STATE["option_cache"]`.  `stale : Option Bool` models the presence of the
`"stale"` key: the success-path dict carries no such key (`none`). -/
structure OptQuote where
  tradingsymbol : String
  option_price : Option ℚ
  iv : Option ℚ
  delta : Option ℚ
  theta : Option ℚ
  gamma : Option ℚ
  vega : Option ℚ
  timestamp : Int
  stale : Option Bool
deriving DecidableEq, Repr

/-- `_quote_option(tradingsymbol)` (lines 291-330).  `cache` is
`STATE["option_cache"]`; `fetch` is the outcome of
`kc.quote(["NFO:" + tradingsymbol])[full_symbol]` (`none` when the client
or the call raises); `now` is `datetime.now(timezone.utc)`.  Returns the
new cache and `some out` for a served quote, or `none` for
`raise HTTPException(500, "quote failed and no cache")`.  On success the
fresh dict (with no `"stale"` key) overwrites the cache entry; on failure a
copy of the cached dict with `stale = True` forced is served and the cache
is untouched. -/
def quote_option (cache : List (String × OptQuote)) (tradingsymbol : String)
    (fetch : Option QuoteData) (now : Int) :
    List (String × OptQuote) × Option OptQuote :=
  match fetch with
  | some data =>
    let out : OptQuote :=
      { tradingsymbol := tradingsymbol, option_price := data.last_price,
        iv := data.implied_volatility, delta := data.delta,
        theta := data.theta, gamma := data.gamma, vega := data.vega,
        timestamp := now, stale := none }
    (dictSet cache tradingsymbol out, some out)
  | none =>
    match dictGet cache tradingsymbol with
    | some cached => (cache, some { cached with stale := some true })
    | none => (cache, none)

/-- The `/option_quote` route (lines 549-594), from the point where the
tradingsymbol has been resolved: it calls `_quote_option` and then
overwrites the `"stale"` key of any served quote with the global
`_is_stale()` verdict (line 592: `q["stale"] = _is_stale()`), computed from
`STATE["last_fetch_ts"]`.  (The route also attaches request-context keys —
instrument, expiry, strike, opt_type, spot_now, lot_size — which no claim
inspects and which are elided here.) -/
def option_quote (cache : List (String × OptQuote)) (tradingsymbol : String)
    (fetch : Option QuoteData) (now : Int) (last_fetch_ts : Option Int) :
    List (String × OptQuote) × Option OptQuote :=
  let r := quote_option cache tradingsymbol fetch now
  (r.1, r.2.map (fun q => { q with stale := some (is_stale last_fetch_ts now) }))

/-- The `snapshot.json` payload written by `_save_snapshot_to_disk`
(lines 86-90): `last_fetch_ts`, `spot`, `option_cache`. -/
structure Snapshot where
  last_fetch_ts : Option Int
  spot : List (String × ℚ)
  option_cache : List (String × OptQuote)
deriving DecidableEq, Repr

/-- The slice of `STATE` that the spot-refresh cycle and snapshot
persistence touch, plus `saved`: the history of `snapshot.json` writes
(newest last), standing in for durable storage. -/
structure SpotState where
  spot : List (String × ℚ)
  last_fetch_ts : Option Int
  option_cache : List (String × OptQuote)
  saved : List Snapshot
deriving DecidableEq, Repr

/-- `_save_snapshot_to_disk()` (lines 80-95): writes the current
`last_fetch_ts` / `spot` / `option_cache` to `snapshot.json`. -/
def save_snapshot_to_disk (s : SpotState) : SpotState :=
  { s with
    saved := s.saved ++
      [{ last_fetch_ts := s.last_fetch_ts, spot := s.spot,
         option_cache := s.option_cache }] }

/-- `_load_snapshot_from_disk()` (lines 98-116): at boot, if a snapshot
file exists (`file = some data`) and no snapshot was loaded yet, restore
`last_fetch_ts`, `spot` and `option_cache` from it; otherwise leave the
state alone. -/
def load_snapshot_from_disk (s : SpotState) (file : Option Snapshot)
    (snapshot_loaded : Bool) : SpotState :=
  if snapshot_loaded then s
  else
    match file with
    | some data =>
      { s with last_fetch_ts := data.last_fetch_ts, spot := data.spot,
               option_cache := data.option_cache }
    | none => s

/-- The index mapping of `_fetch_spot_loop` (lines 357-361):
our naming → Zerodha quote keys. -/
def SPOT_MAPPING : List (String × String) :=
  [("NIFTY_50", "NSE:NIFTY 50"), ("BANKNIFTY", "NSE:BANKNIFTY"),
   ("SENSEX", "BSE:SENSEX")]

/-- The `new_spot` dict built in `_fetch_spot_loop` (lines 367-370) from
the batched quote response `q`: for each mapped index whose quote is
present and carries a `last_price` key, one entry `ui_name -> last_price`.
(`q` holds exactly the response entries that have a `last_price`.) -/
def new_spot_of (q : List (String × ℚ)) : List (String × ℚ) :=
  SPOT_MAPPING.filterMap
    (fun p => (dictGet q p.2).map (fun price => (p.1, price)))

/-- One iteration of `_fetch_spot_loop`'s spot-update section
(lines 365-378), after a successful batched `kc.quote`: if `new_spot` is
nonempty, replace `STATE["spot"]`, set `STATE["last_fetch_ts"]` to now and
save a snapshot; otherwise (`[FETCH WARN] got no spot data`) change
nothing. -/
def fetch_spot_cycle (s : SpotState) (q : List (String × ℚ)) (now : Int) :
    SpotState :=
  let new_spot := new_spot_of q
  if new_spot = [] then s
  else
    save_snapshot_to_disk
      { s with spot := new_spot, last_fetch_ts := some now }

/-- Modelled from the spec: the intended `_build_expiry_list_for_symbol`
(lines 145-191).  In the source this function is broken — its lines 155-162
are dedented to module level, so the module does not even compile
(`return` outside a function at line 191) and the `def`'s body is only its
docstring.  Following the spec (§4.2 `ListExpiries` and the docstring):
map the frontend instrument name to the catalog underlying (`NIFTY_50` →
`NIFTY`, `BANKNIFTY` → `BANKNIFTY`, `SENSEX` → `SENSEX`, anything else
passed through), collect the distinct expiry dates of the underlying's
`NFO-OPT` rows, sort ascending and keep at most the first 4.  (The
label/iso-string formatting of each date is elided.) -/
def build_expiry_list_for_symbol (instrument_dump : List InstrumentRow)
    (instrument_name : String) : List Int :=
  let underlying :=
    if instrument_name = "NIFTY_50" then "NIFTY"
    else if instrument_name = "BANKNIFTY" then "BANKNIFTY"
    else if instrument_name = "SENSEX" then "SENSEX"
    else instrument_name
  (pySortedSet (instrument_dump.filterMap (fun row =>
    if row.segment = "NFO-OPT" ∧ row.name = underlying then some row.expiry
    else none))).take 4

/-! ## Helper lemmas -/

theorem pySortedSet_sorted (l : List Int) :
    (pySortedSet l).Sorted (· ≤ ·) :=
  List.sorted_insertionSort _ _

theorem pySortedSet_nodup (l : List Int) : (pySortedSet l).Nodup :=
  ((List.perm_insertionSort _ _).nodup_iff).mpr (List.nodup_dedup l)

theorem mem_pySortedSet {x : Int} {l : List Int} :
    x ∈ pySortedSet l ↔ x ∈ l := by
  unfold pySortedSet
  rw [List.mem_insertionSort, List.mem_dedup]

/-- The proposition decided by `matchesContract`. -/
theorem matchesContract_iff (underlying : String) (d : Int) (strike : ℚ)
    (opt_type : String) (row : InstrumentRow) :
    matchesContract underlying d strike opt_type row = true ↔
      row.segment = "NFO-OPT" ∧ row.name = underlying ∧ row.expiry = d ∧
        row.instrument_type = some opt_type ∧
        ∃ st, row.strike = some st ∧ pyRound st = pyRound strike := by
  unfold matchesContract
  cases h : row.strike with
  | none => simp [h]
  | some st => simp [h, and_assoc]

/-- Soundness of the contract-lookup scan: a returned tradingsymbol comes
from a row of the dump matching every condition of the loop. -/
theorem find_tradingsymbol_sound {dump : List InstrumentRow} {name : String}
    {d : Int} {strike : ℚ} {opt_type sym : String}
    (h : find_tradingsymbol dump name (some d) strike opt_type = some sym) :
    ∃ row ∈ dump,
      row.segment = "NFO-OPT" ∧ row.name = underlyingFor name ∧
        row.expiry = d ∧ row.instrument_type = some opt_type ∧
        (∃ st, row.strike = some st ∧ pyRound st = pyRound strike) ∧
        row.tradingsymbol = some sym := by
  unfold find_tradingsymbol at h
  obtain ⟨row, hfind, hts⟩ := Option.bind_eq_some.mp h
  refine ⟨row, List.mem_of_find?_eq_some hfind, ?_⟩
  have hmatch := List.find?_some hfind
  rw [matchesContract_iff] at hmatch
  exact ⟨hmatch.1, hmatch.2.1, hmatch.2.2.1, hmatch.2.2.2.1,
    hmatch.2.2.2.2, hts⟩

/-- When no row of the dump matches all conditions, the scan returns
`None`. -/
theorem find_tradingsymbol_none {dump : List InstrumentRow} {name : String}
    {d : Int} {strike : ℚ} {opt_type : String}
    (h : ∀ row ∈ dump,
      ¬(row.segment = "NFO-OPT" ∧ row.name = underlyingFor name ∧
        row.expiry = d ∧ row.instrument_type = some opt_type ∧
        ∃ st, row.strike = some st ∧ pyRound st = pyRound strike)) :
    find_tradingsymbol dump name (some d) strike opt_type = none := by
  unfold find_tradingsymbol
  have hnone : dump.find?
      (matchesContract (underlyingFor name) d strike opt_type) = none := by
    rw [List.find?_eq_none]
    intro row hrow
    rw [matchesContract_iff]
    exact h row hrow
  simp only [hnone, Option.none_bind]

/-- Membership in the collected strike multiset of `_build_strike_list`. -/
theorem mem_collectStrikes {dump : List InstrumentRow} {u : String} {d : Int}
    {x : Int} :
    x ∈ collectStrikes dump u d ↔
      ∃ row ∈ dump, row.segment = "NFO-OPT" ∧ row.name = u ∧
        row.expiry = d ∧ ∃ st, row.strike = some st ∧ pyRound st = x := by
  unfold collectStrikes
  rw [List.mem_filterMap]
  constructor
  · rintro ⟨row, hrow, hx⟩
    by_cases hcond : row.segment = "NFO-OPT" ∧ row.name = u ∧ row.expiry = d
    · rw [if_pos hcond] at hx
      obtain ⟨st, hst, hpy⟩ := Option.map_eq_some'.mp hx
      exact ⟨row, hrow, hcond.1, hcond.2.1, hcond.2.2, st, hst, hpy⟩
    · rw [if_neg hcond] at hx
      simp at hx
  · rintro ⟨row, hrow, h1, h2, h3, st, hst, hpy⟩
    refine ⟨row, hrow, ?_⟩
    rw [if_pos ⟨h1, h2, h3⟩, hst]
    simpa using hpy

/-- `_build_strike_list` with no spot entry, or a zero (Python-falsy) one:
the band filter is skipped and the full sorted list returned. -/
theorem build_strike_list_no_band {dump : List InstrumentRow} {name : String}
    {d : Int} {spot : List (String × ℚ)}
    (h : dictGet spot name = none ∨ dictGet spot name = some 0) :
    build_strike_list dump name (some d) spot =
      pySortedSet (collectStrikes dump (underlyingFor name) d) := by
  rcases h with h | h <;> simp [build_strike_list, h]

/-- `_build_strike_list` with a truthy spot entry: the `[spot-1500,
spot+1500]` filter is applied and kept exactly when nonempty. -/
theorem build_strike_list_band {dump : List InstrumentRow} {name : String}
    {d : Int} {spot : List (String × ℚ)} {v : ℚ}
    (hv : dictGet spot name = some v) (hv0 : v ≠ 0) :
    build_strike_list dump name (some d) spot =
      (if (pySortedSet (collectStrikes dump (underlyingFor name) d)).filter
            (fun (s : Int) =>
              decide (v - 1500 ≤ (s : ℚ)) && decide ((s : ℚ) ≤ v + 1500)) =
          [] then
        pySortedSet (collectStrikes dump (underlyingFor name) d)
      else
        (pySortedSet (collectStrikes dump (underlyingFor name) d)).filter
          (fun (s : Int) =>
            decide (v - 1500 ≤ (s : ℚ)) && decide ((s : ℚ) ≤ v + 1500))) := by
  simp only [build_strike_list, hv]
  rw [if_neg hv0]

/-- Calls arriving while the rate floor of the current state is still open
are all skipped: no state change, no upstream pull. -/
theorem run_pull_calls_skips
    (calls : List (Int × Option (List InstrumentRow))) (s : CatalogState)
    (h : ∀ p ∈ calls,
      p.1 - s.instrument_last_pull < INSTRUMENT_REFRESH_SECONDS) :
    run_pull_calls s calls = (s, 0) := by
  induction calls with
  | nil => rfl
  | cons p rest ih =>
    obtain ⟨now, fetch⟩ := p
    have hskip : maybe_pull_instruments s now fetch = (s, false) := by
      unfold maybe_pull_instruments
      rw [if_pos (h _ (List.mem_cons_self _ _))]
    have htail := ih (fun p hp => h p (List.mem_cons_of_mem _ hp))
    simp [run_pull_calls, hskip, htail]

/-! ## Claim theorems -/

/-- C9: the staleness predicate `_is_stale` is true when no observation
timestamp exists, true when `now - observedAt` exceeds 120 seconds, and is
monotonic in time for a fixed observation timestamp: for all `t1 < t2`, if
it is stale at `t1` then it is stale at `t2`. -/
theorem is_stale_monotone :
    (∀ now : Int, is_stale none now = true) ∧
    (∀ ts now : Int, is_stale (some ts) now = decide (now - ts > 120)) ∧
    (∀ (g : Option Int) (t1 t2 : Int), t1 < t2 →
      is_stale g t1 = true → is_stale g t2 = true) := by
  refine ⟨fun _ => rfl, fun _ _ => rfl, ?_⟩
  intro g t1 t2 hlt h1
  cases g with
  | none => rfl
  | some ts =>
    simp only [is_stale, decide_eq_true_eq] at h1 ⊢
    omega

theorem is_stale_monotone_witness :
    (121 : Int) < 300 ∧ is_stale (some 0) 300 = true :=
  ⟨by decide, is_stale_monotone.2.2 (some 0) 121 300 (by decide) (by decide)⟩

/-- C2: a failing catalog-refresh attempt (`fetch = none`: upstream error
or missing credential) leaves `instrument_dump` and `instrument_last_pull`
exactly as they were; in particular the timestamp is not advanced, so any
later call outside the original floor window attempts the pull again
instead of waiting out a fresh floor. -/
theorem maybe_pull_failure_preserves :
    (∀ (s : CatalogState) (now : Int),
      (maybe_pull_instruments s now none).1 = s) ∧
    (∀ (s : CatalogState) (now now2 : Int)
      (fetch2 : Option (List InstrumentRow)),
      INSTRUMENT_REFRESH_SECONDS ≤ now - s.instrument_last_pull →
      now ≤ now2 →
      (maybe_pull_instruments ((maybe_pull_instruments s now none).1) now2
          fetch2).2 = true) := by
  have hfst : ∀ (s : CatalogState) (now : Int),
      (maybe_pull_instruments s now none).1 = s := by
    intro s now
    unfold maybe_pull_instruments
    split
    · rfl
    · rfl
  refine ⟨hfst, ?_⟩
  intro s now now2 fetch2 h1 h2
  rw [hfst]
  unfold maybe_pull_instruments
  rw [if_neg (by simp only [INSTRUMENT_REFRESH_SECONDS] at h1 ⊢; omega)]
  cases fetch2 <;> rfl

theorem maybe_pull_failure_preserves_witness :
    (maybe_pull_instruments
        ((maybe_pull_instruments ⟨[], 0⟩ 300 none).1) 301 none).2 = true :=
  maybe_pull_failure_preserves.2 ⟨[], 0⟩ 300 301 none (by decide) (by decide)

/-- C3: while `now - instrument_last_pull` is under the 300-second floor
and a catalog already exists, `_maybe_pull_instruments` returns at once
with no upstream call and no state change; consequently, a call that pulls
successfully at `t0` followed by any number of calls inside `t0`'s floor
window performs exactly one upstream pull in total. -/
theorem catalog_rate_floor :
    (∀ (s : CatalogState) (now : Int) (fetch : Option (List InstrumentRow)),
      now - s.instrument_last_pull < INSTRUMENT_REFRESH_SECONDS →
      s.instrument_dump ≠ [] →
      maybe_pull_instruments s now fetch = (s, false)) ∧
    (∀ (s : CatalogState) (t0 : Int) (l : List InstrumentRow)
      (rest : List (Int × Option (List InstrumentRow))),
      INSTRUMENT_REFRESH_SECONDS ≤ t0 - s.instrument_last_pull →
      (∀ p ∈ rest, p.1 - t0 < INSTRUMENT_REFRESH_SECONDS) →
      run_pull_calls s ((t0, some l) :: rest) =
        ({ instrument_dump := l, instrument_last_pull := t0 }, 1)) := by
  constructor
  · intro s now fetch hfloor _
    unfold maybe_pull_instruments
    rw [if_pos hfloor]
  · intro s t0 l rest h0 hrest
    have hfirst : maybe_pull_instruments s t0 (some l) =
        ({ instrument_dump := l, instrument_last_pull := t0 }, true) := by
      unfold maybe_pull_instruments
      rw [if_neg (by omega)]
    have htail := run_pull_calls_skips rest
      { instrument_dump := l, instrument_last_pull := t0 } hrest
    simp [run_pull_calls, hfirst, htail]

theorem catalog_rate_floor_witness :
    maybe_pull_instruments
        ⟨[{ segment := "NFO-OPT", name := "NIFTY", expiry := 0,
            strike := none, instrument_type := none,
            tradingsymbol := none }], 1000⟩ 1100 none =
      (⟨[{ segment := "NFO-OPT", name := "NIFTY", expiry := 0,
           strike := none, instrument_type := none,
           tradingsymbol := none }], 1000⟩, false) ∧
    run_pull_calls ⟨[], 0⟩ [(300, some []), (301, none), (599, some [])] =
      (⟨[], 300⟩, 1) :=
  ⟨catalog_rate_floor.1 _ 1100 none (by decide) (by decide),
   catalog_rate_floor.2 ⟨[], 0⟩ 300 [] [(301, none), (599, some [])]
     (by decide) (by decide)⟩

/-- C4: on a refresh cycle that obtains at least one underlying's price
(`new_spot` nonempty), the spot snapshot is wholly replaced by `new_spot`
(a function of the quote response alone — no merge with the old map), the
fetch timestamp is set to now, and a snapshot of the new state is written
to durable storage; on a cycle that obtains zero prices the whole state —
spot map, `last_fetch_ts`, and saved snapshots — is exactly unchanged. -/
theorem fetch_spot_cycle_spec :
    (∀ (s : SpotState) (q : List (String × ℚ)) (now : Int),
      new_spot_of q ≠ [] →
      (fetch_spot_cycle s q now).spot = new_spot_of q ∧
      (fetch_spot_cycle s q now).last_fetch_ts = some now ∧
      (fetch_spot_cycle s q now).option_cache = s.option_cache ∧
      (fetch_spot_cycle s q now).saved = s.saved ++
        [{ last_fetch_ts := some now, spot := new_spot_of q,
           option_cache := s.option_cache }]) ∧
    (∀ (s : SpotState) (q : List (String × ℚ)) (now : Int),
      new_spot_of q = [] → fetch_spot_cycle s q now = s) := by
  constructor
  · intro s q now hne
    unfold fetch_spot_cycle save_snapshot_to_disk
    rw [if_neg hne]
    exact ⟨rfl, rfl, rfl, rfl⟩
  · intro s q now he
    unfold fetch_spot_cycle
    rw [if_pos he]

theorem fetch_spot_cycle_spec_witness :
    (fetch_spot_cycle
        { spot := [("NIFTY_50", 11)], last_fetch_ts := some 1,
          option_cache := [], saved := [] }
        [("NSE:NIFTY 50", 25977)] 50).spot =
      new_spot_of [("NSE:NIFTY 50", 25977)] ∧
    fetch_spot_cycle
        { spot := [("NIFTY_50", 11)], last_fetch_ts := some 1,
          option_cache := [], saved := [] }
        [] 50 =
      { spot := [("NIFTY_50", 11)], last_fetch_ts := some 1,
        option_cache := [], saved := [] } :=
  ⟨(fetch_spot_cycle_spec.1
      { spot := [("NIFTY_50", 11)], last_fetch_ts := some 1,
        option_cache := [], saved := [] }
      [("NSE:NIFTY 50", 25977)] 50
      (by simp [new_spot_of, SPOT_MAPPING, dictGet])).1,
   fetch_spot_cycle_spec.2
     { spot := [("NIFTY_50", 11)], last_fetch_ts := some 1,
       option_cache := [], saved := [] }
     [] 50 (by simp [new_spot_of, SPOT_MAPPING, dictGet])⟩

/-- C5 counterexample: a snapshot saved with `last_fetch_ts = 1000` and
reloaded at boot reproduces the spot values, but evaluated 10 seconds
later `_is_stale` reports it fresh — the reload does **not** mark a
restored snapshot stale regardless of elapsed time, contradicting the
claim. -/
theorem snapshot_reload_not_stale_cex :
    (load_snapshot_from_disk
        { spot := [], last_fetch_ts := none, option_cache := [], saved := [] }
        ((save_snapshot_to_disk
            { spot := [("NIFTY_50", 25977)], last_fetch_ts := some 1000,
              option_cache := [], saved := [] }).saved.getLast?)
        false).spot = [("NIFTY_50", 25977)] ∧
    is_stale
        (load_snapshot_from_disk
            { spot := [], last_fetch_ts := none, option_cache := [],
              saved := [] }
            ((save_snapshot_to_disk
                { spot := [("NIFTY_50", 25977)], last_fetch_ts := some 1000,
                  option_cache := [], saved := [] }).saved.getLast?)
            false).last_fetch_ts 1010 = false :=
  ⟨rfl, rfl⟩

/-- C5 amended: a snapshot written by `_save_snapshot_to_disk` and
reloaded at boot by `_load_snapshot_from_disk` reproduces the saved spot
values, timestamp and option cache identically; the reloaded snapshot is
reported stale exactly when the restored timestamp is absent or more than
120 seconds before now — not unconditionally. -/
theorem snapshot_roundtrip :
    (∀ (s boot : SpotState) (snap : Snapshot),
      (save_snapshot_to_disk s).saved = s.saved ++ [snap] →
      (load_snapshot_from_disk boot (some snap) false).spot = s.spot ∧
      (load_snapshot_from_disk boot (some snap) false).last_fetch_ts =
        s.last_fetch_ts ∧
      (load_snapshot_from_disk boot (some snap) false).option_cache =
        s.option_cache) ∧
    (∀ ts now : Int, is_stale (some ts) now = decide (now - ts > 120)) ∧
    (∀ now : Int, is_stale none now = true) := by
  refine ⟨?_, fun _ _ => rfl, fun _ => rfl⟩
  intro s boot snap hsave
  unfold save_snapshot_to_disk at hsave
  have hsnap : snap =
      { last_fetch_ts := s.last_fetch_ts, spot := s.spot,
        option_cache := s.option_cache } := by
    have := List.append_cancel_left hsave
    simpa using this.symm
  subst hsnap
  exact ⟨rfl, rfl, rfl⟩

theorem snapshot_roundtrip_witness :
    (load_snapshot_from_disk
        { spot := [], last_fetch_ts := none, option_cache := [], saved := [] }
        (some { last_fetch_ts := some 1000, spot := [("NIFTY_50", 25977)],
                option_cache := [] })
        false).spot = [("NIFTY_50", 25977)] :=
  (snapshot_roundtrip.1
    { spot := [("NIFTY_50", 25977)], last_fetch_ts := some 1000,
      option_cache := [], saved := [] }
    { spot := [], last_fetch_ts := none, option_cache := [], saved := [] }
    { last_fetch_ts := some 1000, spot := [("NIFTY_50", 25977)],
      option_cache := [] }
    rfl).1

/-- C1 counterexample: the cache holds an entry for `"SYM"`, the live
fetch fails (`fetch = none`), and yet the quote the `/option_quote` route
serves carries `stale = false` — because line 592 overwrites the helper's
forced `stale = True` with the global `_is_stale()` verdict, which is
false here (spot data 40 s old).  The claim's "stale=true forced" is false
at this input. -/
theorem option_quote_stale_cex :
    (option_quote
        [("SYM", { tradingsymbol := "SYM", option_price := some 100,
                   iv := none, delta := none, theta := none, gamma := none,
                   vega := none, timestamp := 0, stale := none })]
        "SYM" none 50 (some 10)).2.map OptQuote.stale = some (some false) ∧
    (option_quote
        [("SYM", { tradingsymbol := "SYM", option_price := some 100,
                   iv := none, delta := none, theta := none, gamma := none,
                   vega := none, timestamp := 0, stale := none })]
        "SYM" none 50 (some 10)).2.map OptQuote.stale ≠ some (some true) := by
  exact ⟨rfl, by decide⟩

/-- C1 amended: `_quote_option` itself behaves as the claim says — on
success it overwrites the per-symbol cache entry with the fresh quote and
returns it, on failure it returns a copy of the cached entry with
`stale = True` forced leaving the cache untouched, and with no cache it
raises instead of fabricating a price — except that the success-path dict
carries no `stale` key at all; and the `/option_quote` route then
overwrites the `stale` field of every served quote with the global
`_is_stale()` verdict, so the caller sees the spot cache's staleness, not
`false` on success / `true` on fallback. -/
theorem quote_option_spec :
    (∀ (cache : List (String × OptQuote)) (tsym : String) (data : QuoteData)
      (now : Int),
      (quote_option cache tsym (some data) now).2 =
        some { tradingsymbol := tsym, option_price := data.last_price,
               iv := data.implied_volatility, delta := data.delta,
               theta := data.theta, gamma := data.gamma, vega := data.vega,
               timestamp := now, stale := none } ∧
      dictGet (quote_option cache tsym (some data) now).1 tsym =
        (quote_option cache tsym (some data) now).2) ∧
    (∀ (cache : List (String × OptQuote)) (tsym : String) (now : Int)
      (cached : OptQuote),
      dictGet cache tsym = some cached →
      quote_option cache tsym none now =
        (cache, some { cached with stale := some true })) ∧
    (∀ (cache : List (String × OptQuote)) (tsym : String) (now : Int),
      dictGet cache tsym = none →
      quote_option cache tsym none now = (cache, none)) ∧
    (∀ (cache : List (String × OptQuote)) (tsym : String)
      (fetch : Option QuoteData) (now : Int) (g : Option Int) (q : OptQuote),
      (option_quote cache tsym fetch now g).2 = some q →
      q.stale = some (is_stale g now)) := by
  refine ⟨?_, ?_, ?_, ?_⟩
  · intro cache tsym data now
    exact ⟨rfl, by simp [quote_option, dictSet, dictGet]⟩
  · intro cache tsym now cached hc
    simp [quote_option, hc]
  · intro cache tsym now hc
    simp [quote_option, hc]
  · intro cache tsym fetch now g q hq
    unfold option_quote at hq
    obtain ⟨q0, _, hmap⟩ := Option.map_eq_some'.mp hq
    rw [← hmap]

theorem quote_option_spec_witness :
    quote_option
        [("SYM", { tradingsymbol := "SYM", option_price := some 100,
                   iv := none, delta := none, theta := none, gamma := none,
                   vega := none, timestamp := 0, stale := none })]
        "SYM" none 7 =
      ([("SYM", { tradingsymbol := "SYM", option_price := some 100,
                  iv := none, delta := none, theta := none, gamma := none,
                  vega := none, timestamp := 0, stale := none })],
       some { tradingsymbol := "SYM", option_price := some 100,
              iv := none, delta := none, theta := none, gamma := none,
              vega := none, timestamp := 0, stale := some true }) ∧
    quote_option [] "SYM" none 7 = ([], none) ∧
    OptQuote.stale
        { tradingsymbol := "SYM", option_price := some 100, iv := none,
          delta := none, theta := none, gamma := none, vega := none,
          timestamp := 7, stale := some false } =
      some (is_stale (some 10) 50) :=
  ⟨quote_option_spec.2.1
     [("SYM", { tradingsymbol := "SYM", option_price := some 100,
                iv := none, delta := none, theta := none, gamma := none,
                vega := none, timestamp := 0, stale := none })]
     "SYM" 7
     { tradingsymbol := "SYM", option_price := some 100, iv := none,
       delta := none, theta := none, gamma := none, vega := none,
       timestamp := 0, stale := none }
     rfl,
   quote_option_spec.2.2.1 [] "SYM" 7 rfl,
   quote_option_spec.2.2.2
     [("SYM", { tradingsymbol := "SYM", option_price := some 100,
                iv := none, delta := none, theta := none, gamma := none,
                vega := none, timestamp := 7, stale := none })]
     "SYM" none 50 (some 10)
     { tradingsymbol := "SYM", option_price := some 100, iv := none,
       delta := none, theta := none, gamma := none, vega := none,
       timestamp := 7, stale := some false }
     rfl⟩

/-- C6: `_find_tradingsymbol` returns a trading symbol only for a catalog
row whose segment, mapped underlying name, option side and calendar expiry
date match the request exactly and whose strike equals the requested one
after Python integer rounding of both sides; for every combination with no
such row it returns `None` (surfaced by the route as 404 NotFound), not an
error. -/
theorem find_tradingsymbol_spec :
    (∀ (dump : List InstrumentRow) (name : String) (d : Int) (strike : ℚ)
      (opt_type sym : String),
      find_tradingsymbol dump name (some d) strike opt_type = some sym →
      ∃ row ∈ dump,
        row.segment = "NFO-OPT" ∧ row.name = underlyingFor name ∧
          row.expiry = d ∧ row.instrument_type = some opt_type ∧
          (∃ st, row.strike = some st ∧ pyRound st = pyRound strike) ∧
          row.tradingsymbol = some sym) ∧
    (∀ (dump : List InstrumentRow) (name : String) (d : Int) (strike : ℚ)
      (opt_type : String),
      (∀ row ∈ dump,
        ¬(row.segment = "NFO-OPT" ∧ row.name = underlyingFor name ∧
          row.expiry = d ∧ row.instrument_type = some opt_type ∧
          ∃ st, row.strike = some st ∧ pyRound st = pyRound strike)) →
      find_tradingsymbol dump name (some d) strike opt_type = none) :=
  ⟨fun _ _ _ _ _ _ h => find_tradingsymbol_sound h,
   fun _ _ _ _ _ h => find_tradingsymbol_none h⟩

theorem find_tradingsymbol_spec_witness :
    (∃ row ∈ [{ segment := "NFO-OPT", name := "NIFTY", expiry := 20251028,
                strike := some 25900, instrument_type := some "CE",
                tradingsymbol := some "NIFTY25OCT25900CE" : InstrumentRow}],
      row.segment = "NFO-OPT" ∧ row.name = underlyingFor "NIFTY_50" ∧
        row.expiry = 20251028 ∧ row.instrument_type = some "CE" ∧
        (∃ st, row.strike = some st ∧
          pyRound st = pyRound (25900 + 1/10000000 : ℚ)) ∧
        row.tradingsymbol = some "NIFTY25OCT25900CE") ∧
    find_tradingsymbol [] "NIFTY_50" (some 20251028) 25900 "CE" = none :=
  ⟨find_tradingsymbol_spec.1
     [{ segment := "NFO-OPT", name := "NIFTY", expiry := 20251028,
        strike := some 25900, instrument_type := some "CE",
        tradingsymbol := some "NIFTY25OCT25900CE" }]
     "NIFTY_50" 20251028 (25900 + 1/10000000) "CE" "NIFTY25OCT25900CE"
     (by unfold find_tradingsymbol matchesContract underlyingFor pyRound
         norm_num),
   find_tradingsymbol_spec.2 [] "NIFTY_50" 20251028 25900 "CE"
     (by simp)⟩

/-- C7 counterexample: with a spot price available but equal to 0 (Python
falsy), the band filter is skipped even though filtering would be nonempty:
the catalog strikes are 1000 and 26000, the band around spot 0 is
`[-1500, 1500]`, filtering would keep `[1000]`, yet the function returns
the unfiltered `[1000, 26000]`.  The claim's "when a current spot price is
available it filters" is false at this input. -/
theorem build_strike_list_zero_spot_cex :
    build_strike_list
      [{ segment := "NFO-OPT", name := "NIFTY", expiry := 0,
         strike := some 26000, instrument_type := some "CE",
         tradingsymbol := some "A" },
       { segment := "NFO-OPT", name := "NIFTY", expiry := 0,
         strike := some 1000, instrument_type := some "CE",
         tradingsymbol := some "B" }]
      "NIFTY_50" (some 0) [("NIFTY_50", 0)] = [1000, 26000] ∧
    List.filter
      (fun (s : Int) =>
        decide ((0 : ℚ) - 1500 ≤ (s : ℚ)) && decide ((s : ℚ) ≤ (0 : ℚ) + 1500))
      [1000, 26000] = [1000] := by
  constructor
  · norm_num [build_strike_list, collectStrikes, pySortedSet, underlyingFor,
      pyRound, dictGet, List.dedup, List.pwFilter, List.insertionSort,
      List.orderedInsert, List.filterMap_cons, List.filterMap_nil, Option.map]
  · norm_num [List.filter]

/-- C7 amended (as far as the zero-spot counterexample forces): the strike
list is always distinct and ascending; with no spot entry — or a zero
(Python-falsy) one — it is exactly the distinct strikes of the matching
rows; with a nonzero spot entry it is filtered to the symmetric band
`[spot-1500, spot+1500]` whenever that keeps at least one strike, and is
the full unfiltered list whenever the band filter would be empty. -/
theorem build_strike_list_spec :
    (∀ (dump : List InstrumentRow) (name : String) (dOpt : Option Int)
      (spot : List (String × ℚ)),
      (build_strike_list dump name dOpt spot).Sorted (· ≤ ·) ∧
      (build_strike_list dump name dOpt spot).Nodup) ∧
    (∀ (dump : List InstrumentRow) (name : String) (d : Int)
      (spot : List (String × ℚ)),
      (dictGet spot name = none ∨ dictGet spot name = some 0) →
      ∀ x : Int, x ∈ build_strike_list dump name (some d) spot ↔
        x ∈ collectStrikes dump (underlyingFor name) d) ∧
    (∀ (dump : List InstrumentRow) (name : String) (d : Int)
      (spot : List (String × ℚ)) (v : ℚ),
      dictGet spot name = some v → v ≠ 0 →
      (∃ y ∈ collectStrikes dump (underlyingFor name) d,
        v - 1500 ≤ (y : ℚ) ∧ (y : ℚ) ≤ v + 1500) →
      ∀ x : Int, x ∈ build_strike_list dump name (some d) spot ↔
        (x ∈ collectStrikes dump (underlyingFor name) d ∧
          v - 1500 ≤ (x : ℚ) ∧ (x : ℚ) ≤ v + 1500)) ∧
    (∀ (dump : List InstrumentRow) (name : String) (d : Int)
      (spot : List (String × ℚ)) (v : ℚ),
      dictGet spot name = some v → v ≠ 0 →
      (∀ y ∈ collectStrikes dump (underlyingFor name) d,
        ¬(v - 1500 ≤ (y : ℚ) ∧ (y : ℚ) ≤ v + 1500)) →
      ∀ x : Int, x ∈ build_strike_list dump name (some d) spot ↔
        x ∈ collectStrikes dump (underlyingFor name) d) := by
  refine ⟨?_, ?_, ?_, ?_⟩
  · intro dump name dOpt spot
    cases dOpt with
    | none => exact ⟨List.sorted_nil, List.nodup_nil⟩
    | some d =>
      rcases h : dictGet spot name with _ | v
      · rw [build_strike_list_no_band (Or.inl h)]
        exact ⟨pySortedSet_sorted _, pySortedSet_nodup _⟩
      · by_cases hv : v = 0
        · subst hv
          rw [build_strike_list_no_band (Or.inr h)]
          exact ⟨pySortedSet_sorted _, pySortedSet_nodup _⟩
        · rw [build_strike_list_band h hv]
          split
          · exact ⟨pySortedSet_sorted _, pySortedSet_nodup _⟩
          · exact ⟨(pySortedSet_sorted _).filter _,
              (pySortedSet_nodup _).filter _⟩
  · intro dump name d spot h x
    rw [build_strike_list_no_band h, mem_pySortedSet]
  · intro dump name d spot v hv hv0 hex x
    rw [build_strike_list_band hv hv0]
    obtain ⟨y, hy, hy1, hy2⟩ := hex
    have hyf : y ∈ (pySortedSet
        (collectStrikes dump (underlyingFor name) d)).filter
        (fun (s : Int) =>
          decide (v - 1500 ≤ (s : ℚ)) && decide ((s : ℚ) ≤ v + 1500)) :=
      List.mem_filter.mpr ⟨mem_pySortedSet.mpr hy, by simp [hy1, hy2]⟩
    rw [if_neg (List.ne_nil_of_mem hyf)]
    rw [List.mem_filter, mem_pySortedSet]
    simp [and_assoc]
  · intro dump name d spot v hv hv0 hall x
    rw [build_strike_list_band hv hv0]
    rw [if_pos (List.filter_eq_nil_iff.mpr ?_), mem_pySortedSet]
    intro a ha
    have := hall a (mem_pySortedSet.mp ha)
    simpa using this

theorem build_strike_list_spec_witness :
    (26000 : Int) ∈ build_strike_list
        [{ segment := "NFO-OPT", name := "NIFTY", expiry := 0,
           strike := some 26000, instrument_type := some "CE",
           tradingsymbol := some "A" },
         { segment := "NFO-OPT", name := "NIFTY", expiry := 0,
           strike := some 24000, instrument_type := some "CE",
           tradingsymbol := some "B" }]
        "NIFTY_50" (some 0) [("NIFTY_50", 25977)] ↔
      ((26000 : Int) ∈ collectStrikes
          [{ segment := "NFO-OPT", name := "NIFTY", expiry := 0,
             strike := some 26000, instrument_type := some "CE",
             tradingsymbol := some "A" },
           { segment := "NFO-OPT", name := "NIFTY", expiry := 0,
             strike := some 24000, instrument_type := some "CE",
             tradingsymbol := some "B" }]
          (underlyingFor "NIFTY_50") 0 ∧
        (25977 : ℚ) - 1500 ≤ ((26000 : Int) : ℚ) ∧
          ((26000 : Int) : ℚ) ≤ (25977 : ℚ) + 1500) :=
  build_strike_list_spec.2.2.1
    [{ segment := "NFO-OPT", name := "NIFTY", expiry := 0,
       strike := some 26000, instrument_type := some "CE",
       tradingsymbol := some "A" },
     { segment := "NFO-OPT", name := "NIFTY", expiry := 0,
       strike := some 24000, instrument_type := some "CE",
       tradingsymbol := some "B" }]
    "NIFTY_50" 0 [("NIFTY_50", 25977)] 25977 rfl (by norm_num)
    ⟨26000, by
      norm_num [collectStrikes, underlyingFor, pyRound,
        List.filterMap_cons, List.filterMap_nil, Option.map], by norm_num⟩
    26000

/-- C8 (scenario, proved of the spec-modelled intent — the shipped
`_build_expiry_list_for_symbol` is broken, see its doc comment): for a
catalog holding NIFTY option rows with five expiries, the expiry list is
exactly the earliest four in ascending order, excluding the fifth. -/
theorem build_expiry_list_scenario :
    build_expiry_list_for_symbol
      [{ segment := "NFO-OPT", name := "NIFTY", expiry := 20251118,
         strike := none, instrument_type := some "CE",
         tradingsymbol := none },
       { segment := "NFO-OPT", name := "NIFTY", expiry := 20251028,
         strike := none, instrument_type := some "CE",
         tradingsymbol := none },
       { segment := "NFO-OPT", name := "NIFTY", expiry := 20251104,
         strike := none, instrument_type := some "CE",
         tradingsymbol := none },
       { segment := "NFO-OPT", name := "NIFTY", expiry := 20251125,
         strike := none, instrument_type := some "CE",
         tradingsymbol := none },
       { segment := "NFO-OPT", name := "NIFTY", expiry := 20251111,
         strike := none, instrument_type := some "CE",
         tradingsymbol := none }]
      "NIFTY_50" = [20251028, 20251104, 20251111, 20251118] := by
  decide

/-- C10: for every instrument name other than `"NIFTY_50"` — including
`"SENSEX"` — contract resolution and strike listing filter catalog rows by
underlying name `"BANKNIFTY"`: any symbol or strike they return for such a
name comes from a BANKNIFTY row of the dump. -/
theorem non_nifty_uses_banknifty :
    (∀ name : String, name ≠ "NIFTY_50" → underlyingFor name = "BANKNIFTY") ∧
    (∀ (dump : List InstrumentRow) (name : String) (d : Int) (strike : ℚ)
      (opt_type sym : String), name ≠ "NIFTY_50" →
      find_tradingsymbol dump name (some d) strike opt_type = some sym →
      ∃ row ∈ dump, row.name = "BANKNIFTY" ∧ row.tradingsymbol = some sym) ∧
    (∀ (dump : List InstrumentRow) (name : String) (dOpt : Option Int)
      (spot : List (String × ℚ)) (x : Int), name ≠ "NIFTY_50" →
      x ∈ build_strike_list dump name dOpt spot →
      ∃ row ∈ dump, row.name = "BANKNIFTY" ∧
        ∃ st, row.strike = some st ∧ pyRound st = x) := by
  have hmap : ∀ name : String, name ≠ "NIFTY_50" →
      underlyingFor name = "BANKNIFTY" := by
    intro name h
    unfold underlyingFor
    rw [if_neg h]
  refine ⟨hmap, ?_, ?_⟩
  · intro dump name d strike opt_type sym hname hfind
    obtain ⟨row, hrow, _, hn, _, _, _, hts⟩ := find_tradingsymbol_sound hfind
    exact ⟨row, hrow, by rw [hn, hmap name hname], hts⟩
  · intro dump name dOpt spot x hname hmem
    have hcol : ∃ d, dOpt = some d ∧
        x ∈ collectStrikes dump (underlyingFor name) d := by
      cases dOpt with
      | none => simp [build_strike_list] at hmem
      | some d =>
        refine ⟨d, rfl, ?_⟩
        rcases h : dictGet spot name with _ | v
        · rw [build_strike_list_no_band (Or.inl h), mem_pySortedSet] at hmem
          exact hmem
        · by_cases hv : v = 0
          · subst hv
            rw [build_strike_list_no_band (Or.inr h), mem_pySortedSet] at hmem
            exact hmem
          · rw [build_strike_list_band h hv] at hmem
            split at hmem
            · exact mem_pySortedSet.mp hmem
            · exact mem_pySortedSet.mp (List.mem_filter.mp hmem).1
    obtain ⟨d, _, hx⟩ := hcol
    obtain ⟨row, hrow, _, hn, _, st, hst, hpy⟩ := mem_collectStrikes.mp hx
    exact ⟨row, hrow, by rw [hn, hmap name hname], st, hst, hpy⟩

theorem non_nifty_uses_banknifty_witness :
    underlyingFor "SENSEX" = "BANKNIFTY" ∧
    (∃ row ∈ [{ segment := "NFO-OPT", name := "BANKNIFTY", expiry := 0,
                strike := some 50000, instrument_type := some "CE",
                tradingsymbol := some "BANKNIFTY25OCT50000CE" :
                InstrumentRow}],
      row.name = "BANKNIFTY" ∧
        row.tradingsymbol = some "BANKNIFTY25OCT50000CE") ∧
    (∃ row ∈ [{ segment := "NFO-OPT", name := "BANKNIFTY", expiry := 0,
                strike := some 50000, instrument_type := some "CE",
                tradingsymbol := some "BANKNIFTY25OCT50000CE" :
                InstrumentRow}],
      row.name = "BANKNIFTY" ∧
        ∃ st, row.strike = some st ∧ pyRound st = 50000) :=
  ⟨non_nifty_uses_banknifty.1 "SENSEX" (by decide),
   non_nifty_uses_banknifty.2.1
     [{ segment := "NFO-OPT", name := "BANKNIFTY", expiry := 0,
        strike := some 50000, instrument_type := some "CE",
        tradingsymbol := some "BANKNIFTY25OCT50000CE" }]
     "SENSEX" 0 50000 "CE" "BANKNIFTY25OCT50000CE" (by decide)
     (by unfold find_tradingsymbol matchesContract underlyingFor pyRound
         norm_num
         rfl),
   non_nifty_uses_banknifty.2.2
     [{ segment := "NFO-OPT", name := "BANKNIFTY", expiry := 0,
        strike := some 50000, instrument_type := some "CE",
        tradingsymbol := some "BANKNIFTY25OCT50000CE" }]
     "SENSEX" (some 0) [] 50000 (by decide)
     (by norm_num [build_strike_list, collectStrikes, pySortedSet,
        underlyingFor, pyRound, dictGet, List.dedup, List.pwFilter,
        List.insertionSort, List.orderedInsert, List.filterMap_cons,
        List.filterMap_nil, Option.map])⟩
